import Mathlib

/-!
Verification of the process-lifecycle orchestrator in `main.go` of
Slimo300/chat-groupservice.

The embedded fragment is the part of `main` from the creation of the
error channel onward (lines 93-113) together with the helper
`startHTTPSServer` (lines 117-131).  Everything before line 93
(configuration, database, storage, Kafka setup) aborts the process on
failure through `log.Fatal` and plays no role in the claims.

Modelling conventions:
* `log.Fatal`/`log.Fatalf` exits the process with status 1 (Go's
  documented behaviour: `os.Exit(1)` after printing).
* `main` returning normally exits the process with status 0.
* A channel send statement is modelled by the value the statement
  would send; whether the send completes depends on capacity and on a
  receiver, which we record separately (`errChanCapacity`,
  `quitBranchFunnelReceives`).
* `http.Server.ListenAndServe` / `ListenAndServeTLS` block until they
  return an error; after `Shutdown` is called they return
  `http.ErrServerClosed` (Go stdlib contract).  A terminal outcome of
  a listener is therefore a startup error, a runtime error, or
  `ErrServerClosed` after a cooperative stop.
* `os.Stat` on a path either succeeds or fails; we abstract the file
  system as the boolean result of that call per path.
-/

/-- Go `error` values that can flow through `errChan`.  `errServerClosed`
is `http.ErrServerClosed`; `goError n` is any other distinct non-nil
error (startup or runtime). -/
inductive GoError where
  | errServerClosed : GoError
  | goError : Nat → GoError
deriving DecidableEq, Repr

/-- Terminal outcome of a listener goroutine's blocking serve call:
`ListenAndServe`/`ListenAndServeTLS` returns a startup error (bind
failure), a runtime error, or `http.ErrServerClosed` after the
coordinator called `Shutdown` (cooperative stop). -/
inductive ListenerOutcome where
  | startupError : GoError → ListenerOutcome
  | runtimeError : GoError → ListenerOutcome
  | cooperativeStop : ListenerOutcome
deriving DecidableEq, Repr

/-- The error value the serve call returns for a given terminal
outcome.  A cooperative stop makes it return `http.ErrServerClosed`. -/
def errorOf : ListenerOutcome → GoError
  | ListenerOutcome.startupError e => e
  | ListenerOutcome.runtimeError e => e
  | ListenerOutcome.cooperativeStop => GoError.errServerClosed

/-- Buffer capacity of the Termination Funnel channel.  Line 93:
`errChan := make(chan error)` — `make` without a capacity argument
creates an unbuffered channel, capacity 0. -/
def errChanCapacity : Nat := 0

/-- Number of receive operations on `errChan` performed by `main`
after the `select` has chosen the `<-quit` branch (lines 102-110):
that branch only calls `Shutdown` twice and `log.Fatalf`; it never
reads `errChan` again. -/
def quitBranchFunnelReceives : Nat := 0

/-- Value sent on `errChan` by the plaintext-listener goroutine,
line 96: `go func() { errChan <- httpServer.ListenAndServe() }()`.
The send statement is executed unconditionally with whatever error
the serve call returned, including `http.ErrServerClosed` after a
cooperative stop. -/
def httpTaskSend (o : ListenerOutcome) : Option GoError :=
  some (errorOf o)

/-- Characters of a path split at every `/` (the Unix separator), as
`strings.Split` would produce the components. -/
def splitSlash : List Char → List (List Char)
  | [] => [[]]
  | c :: cs =>
    if c = '/' then [] :: splitSlash cs
    else
      match splitSlash cs with
      | [] => [[c]]
      | p :: ps => (c :: p) :: ps

/-- Elements of a `filepath.Clean` pass over one `/`-separated
component, on a stack of kept components (Go `path/filepath`, Unix
separator): empty and `.` components are dropped, `..` pops a kept
component unless the stack is empty (rooted paths drop the `..`,
relative ones keep it), anything else is pushed. -/
def cleanStep (rooted : Bool) (stack : List (List Char)) (part : List Char) : List (List Char) :=
  if part = [] ∨ part = ['.'] then stack
  else if part = ['.', '.'] then
    match stack with
    | [] => if rooted then [] else [['.', '.']]
    | top :: rest => if top = ['.', '.'] then part :: stack else rest
  else part :: stack

/-- Components rejoined with `/` between them. -/
def joinSlash : List (List Char) → List Char
  | [] => []
  | [p] => p
  | p :: ps => p ++ '/' :: joinSlash ps

/-- Go `filepath.Clean` on Unix: split on `/`, process the components
with `cleanStep`, reassemble; the empty path cleans to `.`. -/
def filepathClean (path : String) : String :=
  if path = "" then "."
  else
    let chars := path.data
    let rooted : Bool := match chars with
      | '/' :: _ => true
      | _ => false
    let stack := List.foldl (cleanStep rooted) [] (splitSlash chars)
    let body := joinSlash stack.reverse
    if rooted then ⟨'/' :: body⟩
    else if body = [] then "." else ⟨body⟩

/-- Go `filepath.Join` applied to a single element, as in line 118:
`filepath.Join(certDir + "cert.pem")`.  Join of one element returns
`""` if it is empty and `Clean` of it otherwise. -/
def filepathJoin1 (e : String) : String :=
  if e = "" then "" else filepathClean e

/-- Path `startHTTPSServer` stats for the certificate, line 118:
`cert := filepath.Join(certDir + "cert.pem")` — note the argument is
string concatenation, not a two-argument join. -/
def certPath (certDir : String) : String :=
  filepathJoin1 (certDir ++ "cert.pem")

/-- Path `startHTTPSServer` stats for the private key, line 123:
`key := filepath.Join(certDir + "key.pem")`. -/
def keyPath (certDir : String) : String :=
  filepathJoin1 (certDir ++ "key.pem")

/-- File system abstraction: `statOk p` is true iff `os.Stat(p)`
returns no error. -/
structure FS where
  statOk : String → Bool

/-- Diagnostic notice printed at lines 120 and 125 when either TLS
file is missing (text abbreviated; the source prints a fixed message
naming cert.pem, key.pem and the directory). -/
def noTLSMaterialNotice (certDir : String) : String :=
  "No cert.pem or key.pem in " ++ certDir

/-- Notice printed at line 129 when the secure listener starts. -/
def httpsStartingNotice : String := "HTTPS Server starting"

/-- Observable behaviour of one run of `startHTTPSServer`: the log
lines it prints, whether it reached `ListenAndServeTLS`, and the value
it sends on `errChan` (none if it returned early). -/
structure HTTPSRun where
  logs : List String
  started : Bool
  sent : Option GoError
deriving DecidableEq, Repr

/-- Model of `startHTTPSServer` (lines 117-131).  It stats the two
paths; if either stat fails it logs the notice and returns without
sending anything; otherwise it logs the start notice and sends the
result of `ListenAndServeTLS` (whose terminal outcome is `o`) on
`errChan`. -/
def startHTTPSServer (fs : FS) (certDir : String) (o : ListenerOutcome) : HTTPSRun :=
  if fs.statOk (certPath certDir) = false then
    ⟨[noTLSMaterialNotice certDir], false, none⟩
  else if fs.statOk (keyPath certDir) = false then
    ⟨[noTLSMaterialNotice certDir], false, none⟩
  else
    ⟨[httpsStartingNotice], true, some (errorOf o)⟩

/-- The two `Shutdown` targets of the quit branch. -/
inductive StopCall where
  | httpStop : StopCall
  | httpsStop : StopCall
deriving DecidableEq, Repr

/-- Which event the `select` at line 101 observed first: an operator
signal on `quit`, or an error delivered on `errChan`. -/
inductive Trigger where
  | operatorSignal : Trigger
  | funnelError : GoError → Trigger
deriving DecidableEq, Repr

/-- Environment for the quit branch: the results of the two `Shutdown`
calls (`none` = success, `some e` = the error `Shutdown` returned,
e.g. the shared 5-second context expiring). -/
structure ShutdownEnv where
  httpStop : Option GoError
  httpsStop : Option GoError
deriving DecidableEq, Repr

/-- Outcome of `main` from the `select` on: the `Shutdown` calls
issued, in program order, and the process exit status. -/
structure RunResult where
  stops : List StopCall
  exitCode : Nat
deriving DecidableEq, Repr

/-- Grace period of the quit branch, line 103:
`context.WithTimeout(context.Background(), 5*time.Second)`.  The same
context is passed to both `Shutdown` calls. -/
def gracePeriodSeconds : Nat := 5

/-- Model of the `select` statement and what follows it
(lines 101-113).  Quit branch: call `httpServer.Shutdown(ctx)`; on
error `log.Fatalf` (exit 1) without touching the TLS server; otherwise
call `httpsServer.Shutdown(ctx)`; on error `log.Fatalf`; otherwise
`main` returns (exit 0).  Funnel branch: `log.Fatal(err)` (exit 1)
with no `Shutdown` call at all. -/
def mainSelect (env : ShutdownEnv) : Trigger → RunResult
  | Trigger.operatorSignal =>
    match env.httpStop with
    | some _ => ⟨[StopCall.httpStop], 1⟩
    | none =>
      match env.httpsStop with
      | some _ => ⟨[StopCall.httpStop, StopCall.httpsStop], 1⟩
      | none => ⟨[StopCall.httpStop, StopCall.httpsStop], 0⟩
  | Trigger.funnelError _ => ⟨[], 1⟩

/-- C1 counterexample: when the funnel delivers a runtime listener
failure, the `select` takes the `errChan` branch, `log.Fatal`s with no
`Shutdown` call at all — the claimed stop call to every started
`ServerInstance` never happens. -/
theorem c1_counterexample :
    (mainSelect ⟨none, none⟩ (Trigger.funnelError (GoError.goError 0))).stops = [] ∧
    (mainSelect ⟨none, none⟩ (Trigger.funnelError (GoError.goError 0))).exitCode = 1 := by
  decide

/-- C1 (amended): when shutdown is triggered by a listener failure
delivered on the funnel, the process exits with a failure status
immediately, issuing no stop call to any `ServerInstance`. -/
theorem c1_amended_no_stop_on_listener_failure (env : ShutdownEnv) (e : GoError) :
    mainSelect env (Trigger.funnelError e) = ⟨[], 1⟩ := rfl

/-- C2 counterexample: a startup error of the plaintext listener is
exactly what `ListenAndServe` returns, and the goroutine at line 96
sends it on `errChan` — so a startup error IS delivered through the
Termination Funnel channel. -/
theorem c2_counterexample :
    httpTaskSend (ListenerOutcome.startupError (GoError.goError 0)) =
      some (GoError.goError 0) := by
  decide

/-- C2 (amended): a listener startup error does abort the process with
a failure status, but it reaches the coordinator through the
Termination Funnel channel: both listener tasks send the startup error
on `errChan`, and the `select`'s funnel branch exits with status 1. -/
theorem c2_amended_startup_error_through_funnel (e : GoError) (env : ShutdownEnv)
    (fs : FS) (certDir : String)
    (hc : fs.statOk (certPath certDir) = true)
    (hk : fs.statOk (keyPath certDir) = true) :
    httpTaskSend (ListenerOutcome.startupError e) = some e ∧
    (startHTTPSServer fs certDir (ListenerOutcome.startupError e)).sent = some e ∧
    (mainSelect env (Trigger.funnelError e)).exitCode = 1 := by
  refine ⟨rfl, ?_, rfl⟩
  simp [startHTTPSServer, errorOf, hc, hk]

/-- C2 witness: the amended statement at a concrete startup error,
file system and environment. -/
theorem c2_amended_witness :
    httpTaskSend (ListenerOutcome.startupError (GoError.goError 1)) =
      some (GoError.goError 1) ∧
    (startHTTPSServer ⟨fun _ => true⟩ "/certs"
        (ListenerOutcome.startupError (GoError.goError 1))).sent =
      some (GoError.goError 1) ∧
    (mainSelect ⟨none, none⟩ (Trigger.funnelError (GoError.goError 1))).exitCode = 1 :=
  c2_amended_startup_error_through_funnel (GoError.goError 1) ⟨none, none⟩
    ⟨fun _ => true⟩ "/certs" rfl rfl

/-- C3 counterexample: after a cooperative stop the serve call returns
`http.ErrServerClosed` and the listener task still executes its send
on `errChan` with that value — the task does push an event on the
funnel channel on cooperative stop. -/
theorem c3_counterexample :
    httpTaskSend ListenerOutcome.cooperativeStop = some GoError.errServerClosed := by
  decide

/-- C3 (amended): a listener task sends on the funnel channel
unconditionally on every termination, cooperative stop included
(then sending `http.ErrServerClosed`); but because the channel is
unbuffered and the quit branch performs no further receives, a
cooperative-stop send blocks and its event is never delivered. -/
theorem c3_amended_unconditional_send_attempt (o : ListenerOutcome) :
    httpTaskSend o = some (errorOf o) ∧
    errChanCapacity = 0 ∧
    quitBranchFunnelReceives = 0 :=
  ⟨rfl, rfl, rfl⟩

/-- C4 counterexample: `make(chan error)` creates an unbuffered
channel, so its capacity is not at least one. -/
theorem c4_counterexample : ¬ (1 ≤ errChanCapacity) := by decide

/-- C4 (amended): the Termination Funnel channel is unbuffered
(capacity 0); a terminating listener's send therefore blocks until the
coordinator's `select` receives it. -/
theorem c4_amended_unbuffered : errChanCapacity = 0 := rfl

/-- C5 counterexample: with the plaintext `Shutdown` failing, the quit
branch `log.Fatal`s after the first stop call and the TLS server's
stop is never issued — the stops are not a parallel fan-out to all
running instances. -/
theorem c5_counterexample :
    (mainSelect ⟨some (GoError.goError 0), none⟩ Trigger.operatorSignal).stops =
      [StopCall.httpStop] := by
  decide

/-- C5 (amended): on an operator signal the stop calls are issued
sequentially under one shared 5-second deadline: the plaintext
`Shutdown` first, and the TLS `Shutdown` only if the plaintext one
returned success. -/
theorem c5_amended_sequential_stops (env : ShutdownEnv) :
    gracePeriodSeconds = 5 ∧
    (mainSelect env Trigger.operatorSignal).stops =
      (match env.httpStop with
       | none => [StopCall.httpStop, StopCall.httpsStop]
       | some _ => [StopCall.httpStop]) := by
  refine ⟨rfl, ?_⟩
  obtain ⟨h1, h2⟩ := env
  cases h1 <;> cases h2 <;> rfl

/-- C6: evaluation of the code at the failing input `certDir =
"/certs"`.  `filepath.Join(certDir + "cert.pem")` concatenates the
file name directly onto the directory string, so the probe stats
`/certscert.pem` and `/certskey.pem`, not the two names joined inside
the directory. -/
theorem c6_paths_not_joined_inside_directory :
    certPath "/certs" = "/certscert.pem" ∧
    certPath "/certs" ≠ "/certs/cert.pem" ∧
    keyPath "/certs" = "/certskey.pem" ∧
    keyPath "/certs" ≠ "/certs/key.pem" := by
  decide

/-- C7: if `os.Stat` fails on the checked certificate path or on the
checked key path, `startHTTPSServer` logs the diagnostic notice,
never reaches `ListenAndServeTLS`, and sends nothing on the funnel
channel — so the secure listener never starts and the task contributes
no exit trigger. -/
theorem c7_missing_tls_material_degrades (fs : FS) (certDir : String)
    (o : ListenerOutcome)
    (h : fs.statOk (certPath certDir) = false ∨ fs.statOk (keyPath certDir) = false) :
    startHTTPSServer fs certDir o = ⟨[noTLSMaterialNotice certDir], false, none⟩ := by
  rcases h with h | h
  · simp [startHTTPSServer, h]
  · cases hc : fs.statOk (certPath certDir) <;> simp [startHTTPSServer, hc, h]

/-- C7 witness: the theorem at a file system with no files at all. -/
theorem c7_missing_tls_material_witness :
    startHTTPSServer ⟨fun _ => false⟩ "/certs" ListenerOutcome.cooperativeStop =
      ⟨[noTLSMaterialNotice "/certs"], false, none⟩ :=
  c7_missing_tls_material_degrades ⟨fun _ => false⟩ "/certs"
    ListenerOutcome.cooperativeStop (Or.inl rfl)

/-- C8: the exit status is 0 exactly when the trigger was the operator
signal and both `Shutdown` calls returned success; in every other
case (funnelled startup or runtime error, or any failed `Shutdown`)
the status is 1. -/
theorem c8_exit_code_characterization (env : ShutdownEnv) (t : Trigger) :
    ((mainSelect env t).exitCode = 0 ↔
      (t = Trigger.operatorSignal ∧ env.httpStop = none ∧ env.httpsStop = none)) ∧
    ((mainSelect env t).exitCode = 0 ∨ (mainSelect env t).exitCode = 1) := by
  obtain ⟨h1, h2⟩ := env
  cases t <;> cases h1 <;> cases h2 <;> simp [mainSelect]

/-- C8 witness: the clean-shutdown direction of the characterization
at a concrete run: operator signal and both stops succeeding give
exit status 0. -/
theorem c8_exit_code_witness :
    (mainSelect ⟨none, none⟩ Trigger.operatorSignal).exitCode = 0 :=
  (c8_exit_code_characterization ⟨none, none⟩ Trigger.operatorSignal).1.mpr
    ⟨rfl, rfl, rfl⟩

/-- C9: the `select` runs exactly one branch once and `main` then
exits on every path, so no `ServerInstance` ever receives more than
one `Shutdown` call, whatever the trigger and stop results. -/
theorem c9_at_most_one_stop_each (env : ShutdownEnv) (t : Trigger) :
    List.count StopCall.httpStop (mainSelect env t).stops ≤ 1 ∧
    List.count StopCall.httpsStop (mainSelect env t).stops ≤ 1 := by
  obtain ⟨h1, h2⟩ := env
  cases t <;> cases h1 <;> cases h2 <;> simp [mainSelect]

/-- C10: in an operator-triggered shutdown the plaintext server's
`Shutdown` is always the first stop call, and if it returns an error
the process exits with status 1 without ever attempting the TLS
server's `Shutdown`. -/
theorem c10_stop_order_and_abort (env : ShutdownEnv) :
    (mainSelect env Trigger.operatorSignal).stops.head? = some StopCall.httpStop ∧
    (∀ e : GoError, env.httpStop = some e →
      mainSelect env Trigger.operatorSignal = ⟨[StopCall.httpStop], 1⟩) := by
  obtain ⟨h1, h2⟩ := env
  cases h1 <;> cases h2 <;> simp [mainSelect]

/-- C10 witness: the theorem at a run whose plaintext `Shutdown`
fails: the only stop call is the plaintext one and the exit status
is 1. -/
theorem c10_stop_order_witness :
    (mainSelect ⟨some (GoError.goError 2), some (GoError.goError 3)⟩
        Trigger.operatorSignal).stops.head? = some StopCall.httpStop ∧
    mainSelect ⟨some (GoError.goError 2), some (GoError.goError 3)⟩
        Trigger.operatorSignal = ⟨[StopCall.httpStop], 1⟩ :=
  ⟨(c10_stop_order_and_abort ⟨some (GoError.goError 2), some (GoError.goError 3)⟩).1,
   (c10_stop_order_and_abort ⟨some (GoError.goError 2), some (GoError.goError 3)⟩).2
     (GoError.goError 2) rfl⟩
